import Mathlib

/-!
Verification development for the x-spider download-store module.

The definitions below are a shallow embedding of the task store in
`src/stores/download.ts` (settings page aside): download tasks, the
zustand store operations, the on-demand status sync with its retry
controller, the background auto-sync poller, the creation-task runner
and the single-concurrency creation-task scheduler.

External collaborators (the aria2 daemon, the path/template resolvers,
the filesystem) are passed in as explicit function parameters; effects
(notifications, daemon submissions) are returned as data; fallible
async calls are modelled with `Except`.
-/

namespace XSpider

/-- JavaScript number used for byte counts: a finite value or the
positive-infinity sentinel used before the daemon reports a total. -/
inductive JSNumber where
  | fin (n : Nat)
  | infinity
deriving DecidableEq, Repr

/-- Opaque Twitter media reference: only the id and the media type are
inspected by the core (the type by the creation-task media filter). -/
structure TwitterMedia where
  id : String
  mtype : String
deriving DecidableEq, Repr

/-- Twitter post as the core sees it: an optional creation timestamp
(dayjs value, modelled as an integer) and an optional media list
(`medias` may be absent on malformed items). -/
structure TwitterPost where
  id : String
  createdAt : Option Int
  medias : Option (List TwitterMedia)
deriving DecidableEq, Repr

/-- Download task record, mirroring the DownloadTask interface:
daemon handle `gid`, daemon status string, byte counts, resolved file
name and directory, source post and media, last error text, logical
`updatedAt` timestamp, download URL and the bounded retry counter. -/
structure DownloadTask where
  gid : String
  status : String
  completeSize : JSNumber
  totalSize : JSNumber
  fileName : String
  media : TwitterMedia
  post : TwitterPost
  error : String
  dir : String
  updatedAt : Nat
  downloadUrl : String
  ariaRetryCountRemains : Nat
deriving DecidableEq, Repr

/-- Status record returned by aria2 tellStatus: `filePath` stands for
the `files[0].path` field of the wire response. -/
structure AriaStat where
  gid : String
  status : String
  completedLength : JSNumber
  totalLength : JSNumber
  filePath : String
  errorMessage : String
  dir : String
deriving DecidableEq, Repr

/-- Relevant download settings (the `download` section). -/
structure Settings where
  saveDirBase : String
  dirTemplate : String
  fileNameTemplate : String
  sameFileSkip : Bool
deriving DecidableEq, Repr

/-- External pure resolvers: the naming-template resolver, path join,
path basename and the download-URL extractor. -/
structure Resolver where
  resolveVariables : String → TwitterPost → TwitterMedia → String
  pathJoin : String → String → String
  basename : String → String
  getDownloadUrl : TwitterMedia → String

/-- Errors surfaced by store operations: the NotFound error thrown by
redownload, a daemon RPC rejection carrying its message, and the
runtime type error raised by dereferencing an undefined lookup. -/
inductive Err where
  | notFound
  | daemon (msg : String)
  | typeError
deriving DecidableEq, Repr

/-- The aria2 daemon interface: single and batched addUri and
tellStatus calls, every one of which may reject. The batched
tellStatus result is the gid-keyed map of the response. -/
structure Aria2Env where
  addUri : String → String → String → Except String String
  tellStatus : String → Except String AriaStat
  batchAddUri : List (String × String × String) → Except String (List String)
  batchTellStatus : List String → Except String (String → Option AriaStat)

/-- The mutable download store state: the download-task collection and
the auto-sync id set tracked by the background poller. -/
structure Store where
  downloadTasks : List DownloadTask
  autoSyncTaskIds : List String
deriving DecidableEq, Repr

/-- mergeAriaStatusToDownloadTask: copy the daemon byte counts, status,
error text and resolved paths onto the old record, stamping
`updatedAt` with the supplied time. -/
def mergeAriaStatusToDownloadTask (rv : Resolver) (ariaStatus : AriaStat)
    (oldTask : DownloadTask) (now : Nat) : DownloadTask :=
  { oldTask with
    gid := ariaStatus.gid
    status := ariaStatus.status
    completeSize := ariaStatus.completedLength
    totalSize := ariaStatus.totalLength
    fileName := rv.basename ariaStatus.filePath
    error := ariaStatus.errorMessage
    dir := ariaStatus.dir
    updatedAt := now }

/-- prepareDownloadTask: resolve the directory and file name from the
templates and build the initial record (empty gid, waiting status,
unknown total size, retry counter at its default of 5). -/
def prepareDownloadTask (s : Settings) (rv : Resolver) (post : TwitterPost)
    (media : TwitterMedia) (prepNow : Nat) : DownloadTask :=
  let downloadUrl := rv.getDownloadUrl media
  let resolvedDirName :=
    if s.dirTemplate == "" then "" else rv.resolveVariables s.dirTemplate post media
  let dir := rv.pathJoin s.saveDirBase resolvedDirName
  let fileName := rv.resolveVariables s.fileNameTemplate post media
  { gid := ""
    status := "waiting"
    completeSize := JSNumber.fin 0
    totalSize := JSNumber.infinity
    fileName := fileName
    media := media
    post := post
    error := ""
    dir := dir
    updatedAt := prepNow
    downloadUrl := downloadUrl
    ariaRetryCountRemains := 5 }

/-- createDownloadTask: prepare the record, submit addUri, query the
initial status of the returned handle, then append the fully
populated record. Any daemon rejection propagates and the store is
left untouched, since the single `set` happens only at the end. -/
def createDownloadTask (A : Aria2Env) (s : Settings) (rv : Resolver)
    (prepNow : Nat) (post : TwitterPost) (media : TwitterMedia)
    (st : Store) : Except Err Store :=
  let task := prepareDownloadTask s rv post media prepNow
  match A.addUri task.downloadUrl task.dir task.fileName with
  | Except.error e => Except.error (Err.daemon e)
  | Except.ok gid =>
    let task1 := { task with gid := gid }
    match A.tellStatus task1.gid with
    | Except.error e => Except.error (Err.daemon e)
    | Except.ok status =>
      let task2 := { task1 with status := status.status }
      Except.ok { st with downloadTasks := st.downloadTasks ++ [task2] }

/-- updateDownloadTask: find the stored record with the same gid; a
missing record or a stored `updatedAt` beyond the comparison time is
a no-op, otherwise the record is replaced wholesale at its index. -/
def updateDownloadTask (task : DownloadTask) (now : Nat) (st : Store) : Store :=
  match st.downloadTasks.findIdx? (fun t => t.gid == task.gid) with
  | none => st
  | some i =>
    match st.downloadTasks[i]? with
    | none => st
    | some oldTask =>
      if oldTask.updatedAt > now then st
      else { st with downloadTasks := st.downloadTasks.set i task }

/-- Rightmost-wins lookup, modelling indexing into the object built by
R.fromPairs, where a later pair overwrites an earlier one. -/
def fromPairsLookup (pairs : List (String × DownloadTask)) (k : String) :
    Option DownloadTask :=
  pairs.foldl (fun acc p => if p.1 == k then some p.2 else acc) none

/-- batchUpdateDownloadTasks: build the gid-keyed map of the incoming
records and map over the stored records, keeping a stored record when
no incoming record matches or the incoming `updatedAt` is strictly
older. -/
def batchUpdateDownloadTasks (tasks : List DownloadTask) (st : Store) : Store :=
  let newTaskMap := fromPairsLookup (tasks.map (fun t => (t.gid, t)))
  let newTasks := st.downloadTasks.map (fun oldTask =>
    match newTaskMap oldTask.gid with
    | none => oldTask
    | some newTask =>
      if newTask.updatedAt < oldTask.updatedAt then oldTask else newTask)
  { st with downloadTasks := newTasks }

/-- removeDownloadTask: drop the gid from the download-task collection
and from the auto-sync id set; the companion daemon remove call is
fire-and-forget and its failure never reaches the store. -/
def removeDownloadTask (gid : String) (st : Store) : Store :=
  { downloadTasks := st.downloadTasks.filter (fun v => !(v.gid == gid))
    autoSyncTaskIds := st.autoSyncTaskIds.filter (fun v => !(v == gid)) }

/-- batchRemoveDownloadTasks: drop the gids from the download-task
collection only; the auto-sync id set is not touched. -/
def batchRemoveDownloadTasks (gids : List String) (st : Store) : Store :=
  { st with
    downloadTasks := st.downloadTasks.filter (fun v => !(gids.contains v.gid)) }

/-- Index-matched gid and status assignment of the batchCreate forEach:
position i of the batched addUri result is written onto task i, and
the status map is dereferenced at that gid; a missing index or a
missing map entry dereferences undefined and raises a type error. -/
def assignGidsAndStatus (statusMap : String → Option AriaStat) :
    List DownloadTask → List String → Except Err (List DownloadTask)
  | [], _ => Except.ok []
  | _ :: _, [] => Except.error Err.typeError
  | t :: ts, g :: gs =>
    match statusMap g with
    | none => Except.error Err.typeError
    | some a =>
      match assignGidsAndStatus statusMap ts gs with
      | Except.error e => Except.error e
      | Except.ok rest => Except.ok ({ t with gid := g, status := a.status } :: rest)

/-- batchCreateDownloadTask: prepare all records, submit them as one
ordered batched addUri call, query all handles in one tellStatus
call, assign handles and statuses by index and append all records in
one step; empty input is a no-op. -/
def batchCreateDownloadTask (A : Aria2Env) (s : Settings) (rv : Resolver)
    (prepNow : Nat) (paramsList : List (TwitterPost × TwitterMedia))
    (st : Store) : Except Err Store :=
  let tasks := paramsList.map (fun p => prepareDownloadTask s rv p.1 p.2 prepNow)
  if tasks.length == 0 then Except.ok st
  else
    match A.batchAddUri (tasks.map (fun t => (t.downloadUrl, t.dir, t.fileName))) with
    | Except.error e => Except.error (Err.daemon e)
    | Except.ok gids =>
      match A.batchTellStatus gids with
      | Except.error e => Except.error (Err.daemon e)
      | Except.ok statusMap =>
        match assignGidsAndStatus statusMap tasks gids with
        | Except.error e => Except.error e
        | Except.ok tasks2 =>
          Except.ok { st with downloadTasks := st.downloadTasks ++ tasks2 }

/-- redownloadTask: NotFound when no stored record carries the gid,
otherwise remove the record and recreate a job from the same post and
media identity. -/
def redownloadTask (A : Aria2Env) (s : Settings) (rv : Resolver)
    (prepNow : Nat) (gid : String) (st : Store) : Except Err Store :=
  match st.downloadTasks.find? (fun t => t.gid == gid) with
  | none => Except.error Err.notFound
  | some oldTask =>
    let st1 := removeDownloadTask oldTask.gid st
    createDownloadTask A s rv prepNow oldTask.post oldTask.media st1

/-- batchRedownloadTask: NotFound when none of the requested gids
matches a stored record, otherwise batch-remove the gids and
batch-recreate jobs from the matched records. -/
def batchRedownloadTask (A : Aria2Env) (s : Settings) (rv : Resolver)
    (prepNow : Nat) (gids : List String) (st : Store) : Except Err Store :=
  let oldTasks := st.downloadTasks.filter (fun t => gids.contains t.gid)
  if oldTasks.length == 0 then Except.error Err.notFound
  else
    let st1 := batchRemoveDownloadTasks gids st
    batchCreateDownloadTask A s rv prepNow
      (oldTasks.map (fun t => (t.post, t.media))) st1

/-- Notification channel: the in-app toast or the OS-level message. -/
inductive Channel where
  | inApp
  | os
deriving DecidableEq, Repr

/-- A raised failure notification, as emitted effect data. -/
structure Notice where
  channel : Channel
  title : String
  body : String
deriving DecidableEq, Repr

/-- Observable outcome of one on-demand sync: the resulting store, the
notifications raised, and the addUri submissions issued (url, dir,
out) in order. -/
structure SyncResult where
  store : Store
  notices : List Notice
  submissions : List (String × String × String)
deriving DecidableEq, Repr

/-- syncDownloadTaskStatus: query one gid. A missing record is a no-op.
On a non-error status, merge the daemon state and guarded-update the
store against the time captured before the query (`nowT`), the merge
itself stamping the later merge-call time (`mergeNow`). On an error
status with retries remaining, remove the record, prepare a fresh job
from the same post and media, carry the decremented counter, submit
it, then query the status of the OLD gid (exactly as the source does)
and append the new record. On an error status with no retries left,
build the merged record locally and raise the in-app and OS failure
notification pair; nothing is written to the store. -/
def syncDownloadTaskStatus (A : Aria2Env) (s : Settings) (rv : Resolver)
    (nowT mergeNow prepNow : Nat) (gid : String) (st : Store) :
    Except Err SyncResult :=
  match st.downloadTasks.find? (fun v => v.gid == gid) with
  | none => Except.ok { store := st, notices := [], submissions := [] }
  | some task =>
    match A.tellStatus gid with
    | Except.error e => Except.error (Err.daemon e)
    | Except.ok status =>
      if status.status == "error" then
        if task.ariaRetryCountRemains > 0 then
          let st1 := removeDownloadTask task.gid st
          let newTask := prepareDownloadTask s rv task.post task.media prepNow
          let newTask1 := { newTask with
            ariaRetryCountRemains := task.ariaRetryCountRemains - 1 }
          match A.addUri task.downloadUrl newTask1.dir newTask1.fileName with
          | Except.error e => Except.error (Err.daemon e)
          | Except.ok gid2 =>
            let newTask2 := { newTask1 with gid := gid2 }
            match A.tellStatus task.gid with
            | Except.error e => Except.error (Err.daemon e)
            | Except.ok status2 =>
              let newTask3 := { newTask2 with status := status2.status }
              Except.ok
                { store := { st1 with
                    downloadTasks := st1.downloadTasks ++ [newTask3] }
                  notices := []
                  submissions := [(task.downloadUrl, newTask1.dir, newTask1.fileName)] }
        else
          let newTask := mergeAriaStatusToDownloadTask rv status task mergeNow
          let msg := "任务下载失败"
          let desc := newTask.fileName ++ "\n" ++
            (if newTask.error == "" then "未知原因" else newTask.error)
          Except.ok
            { store := st
              notices := [{ channel := Channel.inApp, title := msg, body := desc },
                          { channel := Channel.os, title := msg, body := desc }]
              submissions := [] }
      else
        let newTask := mergeAriaStatusToDownloadTask rv status task mergeNow
        Except.ok
          { store := updateDownloadTask newTask nowT st
            notices := []
            submissions := [] }

/-- Outcome of one background-poller tick: the resulting store and
whether the tick reached its final self-rescheduling call. -/
structure TickOutcome where
  store : Store
  rescheduled : Bool
deriving DecidableEq, Repr

/-- scheduleAutoSyncTasks tick body: an empty auto-sync id set idles
and reschedules; otherwise one batched tellStatus is issued for all
tracked ids and every stored task not newer than the captured
snapshot time and present in the response is merged, the result going
through the batch merge guard; the tick then reschedules. A rejected
batched query propagates out of the async body, so the final
rescheduling call is never reached and the error is the result. -/
def scheduleAutoSyncTick (A : Aria2Env) (rv : Resolver) (nowT : Nat)
    (st : Store) : Except Err TickOutcome :=
  let ids := st.autoSyncTaskIds
  if ids.length == 0 then Except.ok { store := st, rescheduled := true }
  else
    match A.batchTellStatus ids with
    | Except.error e => Except.error (Err.daemon e)
    | Except.ok resultMap =>
      let newTasks := st.downloadTasks.map (fun oldTask =>
        if oldTask.updatedAt > nowT then oldTask
        else
          match resultMap oldTask.gid with
          | none => oldTask
          | some a => mergeAriaStatusToDownloadTask rv a oldTask nowT)
      Except.ok { store := batchUpdateDownloadTasks newTasks st, rescheduled := true }

/-- Pagination cursor value of the loop variable: undefined at the
start, null at end-of-stream, or an opaque token string. -/
inductive CursorV where
  | undef
  | null
  | str (s : String)
deriving DecidableEq, Repr

/-- One fetched page of the paginated source. -/
structure Page where
  twitterPosts : List TwitterPost
  cursor : CursorV
deriving DecidableEq, Repr

/-- Creation-task filter: optional media-type set, optional date range
(lower, upper) and the item-source selector. -/
structure DownloadFilter where
  mediaTypes : Option (List String)
  dateRange : Option (Int × Int)
  source : String
deriving DecidableEq, Repr

/-- Creation task record: id, target user, filter, waiting or active
status string and the two running counters. -/
structure CreationTask where
  id : String
  userId : String
  filter : DownloadFilter
  status : String
  completeCount : Nat
  skipCount : Nat
deriving DecidableEq, Repr

/-- External paginated source and filesystem interface of the runner. -/
structure TwitterEnv where
  getUserMedias : String → CursorV → Except String Page
  getUserTweets : String → CursorV → Except String Page
  fsExists : String → Bool

/-- Sum of the attached-media counts over a post list, a missing media
list counting as zero. -/
def getMediaCounts (posts : List TwitterPost) : Nat :=
  posts.foldl
    (fun acc elem =>
      acc + (match elem.medias with | some ms => ms.length | none => 0)) 0

/-- Item-level filter of the runner: the media list must be present
(its length is then trivially nonnegative), and a timestamped post
must fall strictly inside the date bounds; a post without a timestamp
is always in range. -/
def postPassesFilter (since untilT : Int) (post : TwitterPost) : Bool :=
  (match post.medias with | some ms => decide (ms.length ≥ 0) | none => false) &&
  (match post.createdAt with | none => true | some t => decide (t < untilT)) &&
  (match post.createdAt with | none => true | some t => decide (t > since))

/-- Media-level filter: without a configured media-type set every entry
is dropped; otherwise an entry passes when its type is in the set. -/
def mediaPassesFilter (mediaTypes : Option (List String)) (media : TwitterMedia) : Bool :=
  match mediaTypes with
  | none => false
  | some ts => ts.contains media.mtype

/-- Walk the type-filtered media entries of one surviving post: an
entry whose resolved target file already exists is counted as skipped
when the skip-existing option is on, every other entry becomes a
submission parameter. Returns (extra skips, parameters). -/
def collectMediaParams (s : Settings) (rv : Resolver) (fsx : String → Bool)
    (prepNow : Nat) (post : TwitterPost) :
    List TwitterMedia → Nat × List (TwitterPost × TwitterMedia)
  | [] => (0, [])
  | media :: rest =>
    let task := prepareDownloadTask s rv post media prepNow
    let filePath := rv.pathJoin task.dir task.fileName
    let pr := collectMediaParams s rv fsx prepNow post rest
    if s.sameFileSkip && fsx filePath then (pr.1 + 1, pr.2)
    else (pr.1, (post, media) :: pr.2)

/-- Walk all surviving posts of a page, applying the media-type filter
and then the same-file check. Returns (extra skips, parameters). -/
def collectPageParams (s : Settings) (rv : Resolver) (fsx : String → Bool)
    (mediaTypes : Option (List String)) (prepNow : Nat) :
    List TwitterPost → Nat × List (TwitterPost × TwitterMedia)
  | [] => (0, [])
  | post :: rest =>
    let filteredMedias := (post.medias.getD []).filter (mediaPassesFilter mediaTypes)
    let pr1 := collectMediaParams s rv fsx prepNow post filteredMedias
    let pr2 := collectPageParams s rv fsx mediaTypes prepNow rest
    (pr1.1 + pr2.1, pr1.2 ++ pr2.2)

/-- Running state of one creation-task run: the two counters, the
download store and the sequence of (completeCount, skipCount) pairs
published to the creation-task record after each page. -/
structure RunState where
  completeCount : Nat
  skipCount : Nat
  store : Store
  published : List (Nat × Nat)
deriving DecidableEq, Repr

/-- Body of one loop iteration after the page fetch: drop the posts
failing the item filter and add their whole media counts to the skip
counter; with no survivors publish and continue; otherwise collect
parameters (same-file skips incrementing the counter), publish and
continue when none remain, else batch-create the downloads, advance
the completion counter by the submitted count and publish. The flag
reports whether the submission path ran. -/
def processPage (A : Aria2Env) (s : Settings) (rv : Resolver)
    (fsx : String → Bool) (mediaTypes : Option (List String))
    (since untilT : Int) (prepNow : Nat) (twitterPosts : List TwitterPost)
    (rs : RunState) : Except Err (RunState × Bool) :=
  let filteredPosts := twitterPosts.filter (postPassesFilter since untilT)
  let filteredCount := getMediaCounts twitterPosts - getMediaCounts filteredPosts
  let sk1 := rs.skipCount + filteredCount
  if filteredPosts.length == 0 then
    Except.ok ({ rs with
      skipCount := sk1
      published := rs.published ++ [(rs.completeCount, sk1)] }, false)
  else
    let pr := collectPageParams s rv fsx mediaTypes prepNow filteredPosts
    let sk2 := sk1 + pr.1
    if pr.2.length == 0 then
      Except.ok ({ rs with
        skipCount := sk2
        published := rs.published ++ [(rs.completeCount, sk2)] }, false)
    else
      match batchCreateDownloadTask A s rv prepNow pr.2 rs.store with
      | Except.error e => Except.error e
      | Except.ok store2 =>
        let cc := rs.completeCount + pr.2.length
        Except.ok ({ completeCount := cc, skipCount := sk2, store := store2,
                     published := rs.published ++ [(cc, sk2)] }, true)

/-- The runner loop with explicit fuel. The abort flag is an oracle
consulted at each cooperative checkpoint in source order: before the
fetch, right after it, and after a submission. `none` means the fuel
ran out before the loop condition failed. -/
def runCreationTaskLoop (A : Aria2Env) (T : TwitterEnv) (s : Settings)
    (rv : Resolver) (filter : DownloadFilter) (userId : String)
    (since untilT : Int) (prepNow : Nat) (abortO : Nat → Bool) :
    Nat → Nat → Int → CursorV → RunState → Option (Except Err RunState)
  | 0, _, _, _, _ => none
  | fuel + 1, chk, nowV, cursor, rs =>
    if (!(cursor == CursorV.null)) && decide (nowV > since) then
      if abortO chk then some (Except.ok rs)
      else
        let getListFn :=
          if filter.source == "medias" then T.getUserMedias else T.getUserTweets
        match getListFn userId cursor with
        | Except.error e => some (Except.error (Err.daemon e))
        | Except.ok page =>
          if abortO (chk + 1) then some (Except.ok rs)
          else
            let nowV2 :=
              match page.twitterPosts.getLast? with
              | some p => match p.createdAt with | some c => c | none => nowV
              | none => nowV
            match processPage A s rv T.fsExists filter.mediaTypes since untilT
                prepNow page.twitterPosts rs with
            | Except.error e => some (Except.error e)
            | Except.ok pr =>
              if pr.2 && abortO (chk + 2) then some (Except.ok pr.1)
              else
                runCreationTaskLoop A T s rv filter userId since untilT prepNow
                  abortO fuel (chk + (if pr.2 then 3 else 2)) nowV2 page.cursor pr.1
    else some (Except.ok rs)

/-- runCreationTask: derive the date bounds from the filter (epoch
zero and the run start time as defaults), start from the undefined
cursor with zeroed counters and run the loop. -/
def runCreationTask (A : Aria2Env) (T : TwitterEnv) (s : Settings)
    (rv : Resolver) (task : CreationTask) (now0 : Int) (prepNow : Nat)
    (abortO : Nat → Bool) (fuel : Nat) (st : Store) :
    Option (Except Err RunState) :=
  let since := match task.filter.dateRange with | some r => r.1 | none => 0
  let untilT := match task.filter.dateRange with | some r => r.2 | none => now0
  runCreationTaskLoop A T s rv task.filter task.userId since untilT prepNow
    abortO fuel 0 now0 CursorV.undef
    { completeCount := 0, skipCount := 0, store := st, published := [] }

/-- State of the creation-task scheduling system: the creation-task
queue and the id of the task whose run is currently in flight, if
any. -/
structure SchedState where
  tasks : List CreationTask
  runner : Option String
deriving DecidableEq, Repr

/-- Number of creation tasks currently in the active state. -/
def countActive (ts : List CreationTask) : Nat :=
  (ts.filter (fun t => t.status == "active")).length

/-- One step of the creation-task system, covering every queue
operation: user creation (fresh id, waiting status), removal of any
task (user removal or the discard of an already-aborted head),
the scheduler picking the queue head only when its loop is idle and
the active-task check found nothing, the in-flight runner publishing
its counters, and the scheduler removing the finished task when the
run returns or fails. -/
inductive SchedStep : SchedState → SchedState → Prop
  | create (s : SchedState) (t : CreationTask) :
      t.status = "waiting" →
      (∀ u ∈ s.tasks, u.id ≠ t.id) →
      s.runner ≠ some t.id →
      SchedStep s { tasks := s.tasks ++ [t], runner := s.runner }
  | remove (s : SchedState) (id : String) :
      SchedStep s { tasks := s.tasks.filter (fun t => !(t.id == id)), runner := s.runner }
  | pick (s : SchedState) (t : CreationTask) (rest : List CreationTask) :
      s.runner = none →
      s.tasks = t :: rest →
      s.tasks.find? (fun u => u.status == "active") = none →
      SchedStep s
        { tasks := s.tasks.map (fun u =>
            if u.id == t.id then { u with status := "active" } else u)
          runner := some t.id }
  | publish (s : SchedState) (id : String) (cc sk : Nat) :
      s.runner = some id →
      SchedStep s
        { tasks := s.tasks.map (fun u =>
            if u.id == id then
              { u with status := "active", completeCount := cc, skipCount := sk }
            else u)
          runner := s.runner }
  | finish (s : SchedState) (id : String) :
      s.runner = some id →
      SchedStep s { tasks := s.tasks.filter (fun t => !(t.id == id)), runner := none }

/-- States reachable from the initial empty system by any interleaving
of the queue operations. -/
inductive SchedReachable : SchedState → Prop
  | init : SchedReachable { tasks := [], runner := none }
  | step {s s2 : SchedState} :
      SchedReachable s → SchedStep s s2 → SchedReachable s2

/-! Concrete fixtures shared by the witnesses and counterexamples. -/

/-- Sample photo media entry. -/
def mediaA : TwitterMedia := { id := "m1", mtype := "photo" }

/-- Sample in-range post holding one photo media entry. -/
def postA : TwitterPost := { id := "p1", createdAt := some 100, medias := some [mediaA] }

/-- Sample stored record with handle g1 and an exhausted retry counter. -/
def taskG1 : DownloadTask :=
  { gid := "g1", status := "active", completeSize := JSNumber.fin 0,
    totalSize := JSNumber.infinity, fileName := "f1", media := mediaA,
    post := postA, error := "", dir := "d", updatedAt := 5,
    downloadUrl := "u1", ariaRetryCountRemains := 0 }

/-- Store holding the one record, auto-sync set empty. -/
def stOne : Store := { downloadTasks := [taskG1], autoSyncTaskIds := [] }

/-- Store holding the one record with its handle in the auto-sync set. -/
def stBoth : Store := { downloadTasks := [taskG1], autoSyncTaskIds := ["g1"] }

/-- Concrete resolver: identity template resolution, slash path join,
identity basename and the media id as download URL. -/
def rv0 : Resolver :=
  { resolveVariables := fun t _ _ => t
    pathJoin := fun a b => a ++ "/" ++ b
    basename := fun p => p
    getDownloadUrl := fun m => m.id }

/-- Concrete settings: no directory template, skip-existing off. -/
def settings0 : Settings :=
  { saveDirBase := "base", dirTemplate := "", fileNameTemplate := "name",
    sameFileSkip := false }

/-- Daemon stub on which every call rejects with the message boom. -/
def ariaFailEnv : Aria2Env :=
  { addUri := fun _ _ _ => Except.error "boom"
    tellStatus := fun _ => Except.error "boom"
    batchAddUri := fun _ => Except.error "boom"
    batchTellStatus := fun _ => Except.error "boom" }

/-- Healthy status record reported for handle g2. -/
def statW : AriaStat :=
  { gid := "g2", status := "active", completedLength := JSNumber.fin 3,
    totalLength := JSNumber.fin 10, filePath := "dir/f", errorMessage := "",
    dir := "dir" }

/-- Daemon stub on which every call succeeds, assigning handle g2. -/
def ariaOkEnv : Aria2Env :=
  { addUri := fun _ _ _ => Except.ok "g2"
    tellStatus := fun g => Except.ok { statW with gid := g }
    batchAddUri := fun l => Except.ok (l.map (fun _ => "g2"))
    batchTellStatus := fun _ => Except.ok (fun g => some { statW with gid := g }) }

/-! ## C10 — removal frame effects on the auto-sync set -/

/-- C10: single-task removal deletes the handle from the download-task
collection and from the auto-sync id set, while batch removal deletes
the requested handles from the download-task collection only and
leaves the auto-sync id set untouched; concretely, after batch
removal of g1 from a store tracking g1, the handle is gone from the
collection but still tracked by the poller. -/
theorem removal_frame_effects :
    (∀ (gid h : String) (st : Store),
      (h ∈ (removeDownloadTask gid st).autoSyncTaskIds
        ↔ h ∈ st.autoSyncTaskIds ∧ h ≠ gid)
      ∧ ∀ t : DownloadTask,
          (t ∈ (removeDownloadTask gid st).downloadTasks
            ↔ t ∈ st.downloadTasks ∧ t.gid ≠ gid))
    ∧ (∀ (gids : List String) (st : Store),
      (batchRemoveDownloadTasks gids st).autoSyncTaskIds = st.autoSyncTaskIds
      ∧ ∀ t : DownloadTask,
          (t ∈ (batchRemoveDownloadTasks gids st).downloadTasks
            ↔ t ∈ st.downloadTasks ∧ ¬ t.gid ∈ gids))
    ∧ ((batchRemoveDownloadTasks ["g1"] stBoth).downloadTasks = []
      ∧ "g1" ∈ (batchRemoveDownloadTasks ["g1"] stBoth).autoSyncTaskIds) := by
  refine ⟨fun gid h st => ⟨?_, fun t => ?_⟩, fun gids st => ⟨rfl, fun t => ?_⟩, by decide, by decide⟩
  · simp [removeDownloadTask]
  · simp [removeDownloadTask]
  · simp [batchRemoveDownloadTasks]

/-! ## C4 — single-task merge guard and timestamp handling -/

/-- Incoming record for the C4 counterexample: same handle g1, own
timestamp 7, differing status. -/
def taskC4 : DownloadTask := { taskG1 with updatedAt := 7, status := "complete" }

/-- C4 counterexample: merging the incoming record (own timestamp 7)
into a store whose record has timestamp 5 under comparison time 10
replaces the record but leaves its `updatedAt` at 7, not 10 — the
operation does not set the stored timestamp to the comparison time. -/
theorem updateDownloadTask_keeps_own_timestamp_cex :
    (updateDownloadTask taskC4 10 stOne).downloadTasks.map (fun t => t.updatedAt) = [7]
    ∧ ¬ (updateDownloadTask taskC4 10 stOne).downloadTasks.map (fun t => t.updatedAt) = [10] := by
  constructor
  · rfl
  · decide

/-- C4 amended: the single-task merge is a no-op when the stored record
timestamp exceeds the comparison time (and when no record matches);
otherwise the stored record is wholesale replaced by the incoming
record, whose own `updatedAt` — not the comparison time — becomes the
stored timestamp, and the auto-sync set is untouched. -/
theorem updateDownloadTask_merge_guard (task : DownloadTask) (now : Nat)
    (st : Store) (i : Nat) (oldTask : DownloadTask)
    (hidx : st.downloadTasks.findIdx? (fun t => t.gid == task.gid) = some i)
    (hget : st.downloadTasks[i]? = some oldTask) :
    (oldTask.updatedAt > now → updateDownloadTask task now st = st)
    ∧ (oldTask.updatedAt ≤ now →
        (updateDownloadTask task now st).downloadTasks = st.downloadTasks.set i task
        ∧ (updateDownloadTask task now st).downloadTasks[i]? = some task
        ∧ (updateDownloadTask task now st).autoSyncTaskIds = st.autoSyncTaskIds) := by
  have hlt : i < st.downloadTasks.length := by
    rcases List.getElem?_eq_some.mp hget with ⟨h, _⟩
    exact h
  unfold updateDownloadTask
  simp only [hidx, hget]
  constructor
  · intro h
    rw [if_pos h]
  · intro h
    rw [if_neg (by omega)]
    exact ⟨rfl, by simp [List.getElem?_set_self (by simpa using hlt)], rfl⟩

/-- C4 witness: the amended theorem applied at the concrete store with
stored timestamp 5, incoming timestamp 7 and comparison time 10. -/
theorem updateDownloadTask_merge_guard_witness :
    (5 : Nat) ≤ 10
    ∧ (updateDownloadTask taskC4 10 stOne).downloadTasks = stOne.downloadTasks.set 0 taskC4 :=
  ⟨by decide,
    ((updateDownloadTask_merge_guard taskC4 10 stOne 0 taskG1 rfl rfl).2 (by decide)).1⟩

/-! ## C8 — creation failure stores nothing and surfaces the error -/

/-- C8: when the daemon submission, or the immediate initial-status
query, rejects with some message, createDownloadTask evaluates to
exactly that error — no store is produced, so no record (not even a
partially populated one) is added; the single store write sits after
both daemon calls. -/
theorem createDownloadTask_failure_no_record (A : Aria2Env) (s : Settings)
    (rv : Resolver) (prepNow : Nat) (post : TwitterPost) (media : TwitterMedia)
    (st : Store) (e : String)
    (h : A.addUri (prepareDownloadTask s rv post media prepNow).downloadUrl
          (prepareDownloadTask s rv post media prepNow).dir
          (prepareDownloadTask s rv post media prepNow).fileName = Except.error e
        ∨ ∃ g, A.addUri (prepareDownloadTask s rv post media prepNow).downloadUrl
            (prepareDownloadTask s rv post media prepNow).dir
            (prepareDownloadTask s rv post media prepNow).fileName = Except.ok g
          ∧ A.tellStatus g = Except.error e) :
    createDownloadTask A s rv prepNow post media st = Except.error (Err.daemon e) := by
  rcases h with h | ⟨g, hg, ht⟩
  · unfold createDownloadTask
    dsimp only
    rw [h]
  · unfold createDownloadTask
    dsimp only
    rw [hg]
    dsimp only
    rw [ht]

/-- C8 witness: the theorem applied to the always-rejecting daemon
stub: the creation call surfaces the daemon error. -/
theorem createDownloadTask_failure_no_record_witness :
    createDownloadTask ariaFailEnv settings0 rv0 0 postA mediaA
      { downloadTasks := [], autoSyncTaskIds := [] } = Except.error (Err.daemon "boom") :=
  createDownloadTask_failure_no_record ariaFailEnv settings0 rv0 0 postA mediaA
    { downloadTasks := [], autoSyncTaskIds := [] } "boom" (Or.inl rfl)

/-! ## C1 — exhausted retries: notification pair, but no store merge -/

/-- Error status record reported for handle g1. -/
def statErr : AriaStat :=
  { gid := "g1", status := "error", completedLength := JSNumber.fin 1,
    totalLength := JSNumber.fin 10, filePath := "dir/f1", errorMessage := "boom",
    dir := "dir" }

/-- Daemon stub reporting an error status for g1 and a healthy status
for every other handle; submissions succeed with handle g2. -/
def ariaErrEnv : Aria2Env :=
  { addUri := fun _ _ _ => Except.ok "g2"
    tellStatus := fun g =>
      if g == "g1" then Except.ok statErr else Except.ok { statW with gid := g }
    batchAddUri := fun l => Except.ok (l.map (fun _ => "g2"))
    batchTellStatus := fun _ => Except.ok (fun g => some { statW with gid := g }) }

/-- C1 counterexample: with the stored g1 record at zero retries and
the daemon reporting an Error status, the sync raises the
notification pair but returns the store unchanged — the stored record
still has status active, so no terminal Error-state record is merged
into the store, contrary to the claim. -/
theorem syncExhausted_no_store_merge_cex :
    syncDownloadTaskStatus ariaErrEnv settings0 rv0 9 20 0 "g1" stOne =
      Except.ok
        { store := stOne
          notices :=
            [{ channel := Channel.inApp, title := "任务下载失败", body := "dir/f1\nboom" },
             { channel := Channel.os, title := "任务下载失败", body := "dir/f1\nboom" }]
          submissions := [] }
    ∧ stOne.downloadTasks.map (fun t => t.status) = ["active"]
    ∧ ¬ stOne.downloadTasks.map (fun t => t.status) = ["error"] := by
  refine ⟨rfl, rfl, by decide⟩

/-- C1 amended: when the stored record has no retries left and the
daemon reports an Error status, the sync performs no resubmission and
leaves the store completely unchanged (the daemon failure detail is
merged only into a local record used for the notification text), and
it raises exactly one failure notification — the in-app and OS pair —
carrying the resolved file name and the daemon error text, or the
generic unknown-reason fallback when that text is empty. -/
theorem syncExhausted_notifies_only (A : Aria2Env) (s : Settings) (rv : Resolver)
    (nowT mergeNow prepNow : Nat) (gid : String) (st : Store)
    (task : DownloadTask) (a : AriaStat)
    (hfind : st.downloadTasks.find? (fun v => v.gid == gid) = some task)
    (hretr : task.ariaRetryCountRemains = 0)
    (htell : A.tellStatus gid = Except.ok a)
    (herr : a.status = "error") :
    syncDownloadTaskStatus A s rv nowT mergeNow prepNow gid st =
      Except.ok
        { store := st
          notices :=
            [{ channel := Channel.inApp, title := "任务下载失败",
               body := rv.basename a.filePath ++ "\n" ++
                 (if a.errorMessage == "" then "未知原因" else a.errorMessage) },
             { channel := Channel.os, title := "任务下载失败",
               body := rv.basename a.filePath ++ "\n" ++
                 (if a.errorMessage == "" then "未知原因" else a.errorMessage) }]
          submissions := [] } := by
  unfold syncDownloadTaskStatus
  simp only [hfind, htell, herr, hretr, mergeAriaStatusToDownloadTask]
  rfl

/-- C1 witness: the amended theorem applied at the concrete store and
error-reporting daemon stub. -/
theorem syncExhausted_notifies_only_witness :
    syncDownloadTaskStatus ariaErrEnv settings0 rv0 9 20 0 "g1" stOne =
      Except.ok
        { store := stOne
          notices :=
            [{ channel := Channel.inApp, title := "任务下载失败",
               body := rv0.basename statErr.filePath ++ "\n" ++
                 (if statErr.errorMessage == "" then "未知原因" else statErr.errorMessage) },
             { channel := Channel.os, title := "任务下载失败",
               body := rv0.basename statErr.filePath ++ "\n" ++
                 (if statErr.errorMessage == "" then "未知原因" else statErr.errorMessage) }]
          submissions := [] } :=
  syncExhausted_notifies_only ariaErrEnv settings0 rv0 9 20 0 "g1" stOne taskG1 statErr
    rfl rfl rfl rfl

/-! ## C5 — retry path queries the status of the old handle -/

/-- Stored g1 record with three retries remaining. -/
def taskC5 : DownloadTask := { taskG1 with ariaRetryCountRemains := 3 }

/-- Store holding the retryable record, tracked by the poller. -/
def stC5 : Store := { downloadTasks := [taskC5], autoSyncTaskIds := ["g1"] }

/-- Record the retry path actually stores at the concrete input: new
handle g2, decremented counter, but the status read from the old
handle g1. -/
def taskC5new : DownloadTask :=
  { prepareDownloadTask settings0 rv0 postA mediaA 0 with
    gid := "g2", status := "error", ariaRetryCountRemains := 2 }

/-- C5 evaluated at the failing input: the record is discarded, a new
job is built from the same post and media, resubmitted (one addUri
call), and a new record with handle g2 and counter 2 is stored — but
the status written into it is the one read by querying the OLD handle
g1 (the Error status), not the initial status of the new handle g2,
which the daemon reports as active. -/
theorem syncRetry_reads_old_handle_status :
    syncDownloadTaskStatus ariaErrEnv settings0 rv0 9 20 0 "g1" stC5 =
      Except.ok
        { store := { downloadTasks := [taskC5new], autoSyncTaskIds := [] }
          notices := []
          submissions := [("u1", "base/", "name")] }
    ∧ taskC5new.gid = "g2"
    ∧ taskC5new.status = "error"
    ∧ taskC5new.ariaRetryCountRemains = 2
    ∧ ariaErrEnv.tellStatus "g1" = Except.ok statErr
    ∧ statErr.status = "error"
    ∧ ariaErrEnv.tellStatus "g2" = Except.ok { statW with gid := "g2" }
    ∧ ({ statW with gid := "g2" } : AriaStat).status = "active" :=
  ⟨rfl, rfl, rfl, rfl, rfl, rfl, rfl, rfl⟩

/-! ## C2 — a failing batched query stops the poller loop -/

/-- C2 counterexample: it is not the case that every tick reschedules;
with one tracked id and a rejecting batched status query the tick
body evaluates to the error, never reaching its rescheduling call. -/
theorem autoSyncTick_not_always_rescheduled :
    ¬ (∀ (A : Aria2Env) (rv : Resolver) (nowT : Nat) (st : Store),
        ∃ out, scheduleAutoSyncTick A rv nowT st = Except.ok out
          ∧ out.rescheduled = true) := by
  intro h
  rcases h ariaFailEnv rv0 0 { downloadTasks := [], autoSyncTaskIds := ["g1"] }
    with ⟨out, hout, _⟩
  have h2 : (Except.error (Err.daemon "boom") : Except Err TickOutcome) = Except.ok out := hout
  exact Except.noConfusion h2

/-- C2 amended: a tick with an empty auto-sync id set reschedules with
no further work, and a tick whose batched status query succeeds
merges and reschedules; but a tick whose batched query rejects
evaluates to that error without rescheduling, stopping the loop. -/
theorem autoSyncTick_reschedule_cases (A : Aria2Env) (rv : Resolver)
    (nowT : Nat) (st : Store) :
    (st.autoSyncTaskIds = [] →
      scheduleAutoSyncTick A rv nowT st = Except.ok { store := st, rescheduled := true })
    ∧ (∀ m, A.batchTellStatus st.autoSyncTaskIds = Except.ok m →
        ∃ st2, scheduleAutoSyncTick A rv nowT st
          = Except.ok { store := st2, rescheduled := true })
    ∧ (∀ e, st.autoSyncTaskIds ≠ [] →
        A.batchTellStatus st.autoSyncTaskIds = Except.error e →
        scheduleAutoSyncTick A rv nowT st = Except.error (Err.daemon e)) := by
  refine ⟨fun h => ?_, fun m hm => ?_, fun e hne he => ?_⟩
  · unfold scheduleAutoSyncTick
    simp [h]
  · by_cases h : st.autoSyncTaskIds = []
    · exact ⟨st, by unfold scheduleAutoSyncTick; simp [h]⟩
    · refine ⟨batchUpdateDownloadTasks (st.downloadTasks.map (fun oldTask =>
        if oldTask.updatedAt > nowT then oldTask
        else
          match m oldTask.gid with
          | none => oldTask
          | some a => mergeAriaStatusToDownloadTask rv a oldTask nowT)) st, ?_⟩
      unfold scheduleAutoSyncTick
      rw [if_neg (by simp [h]), hm]
  · unfold scheduleAutoSyncTick
    rw [if_neg (by simp [hne]), he]

/-- C2 witness: the amended theorem applied at the empty-set store (the
idle tick) — it reschedules. -/
theorem autoSyncTick_reschedule_cases_witness :
    scheduleAutoSyncTick ariaFailEnv rv0 0 { downloadTasks := [], autoSyncTaskIds := [] }
      = Except.ok { store := { downloadTasks := [], autoSyncTaskIds := [] },
                    rescheduled := true } :=
  (autoSyncTick_reschedule_cases ariaFailEnv rv0 0
    { downloadTasks := [], autoSyncTaskIds := [] }).1 rfl

/-! ## C6 — batch merge guard -/

/-- The rightmost-wins fold leaves its accumulator untouched when no
pair key matches. -/
theorem foldl_fromPairs_const (k : String) (acc : Option DownloadTask)
    (ps : List (String × DownloadTask)) (h : ∀ p ∈ ps, (p.1 == k) = false) :
    ps.foldl (fun acc p => if p.1 == k then some p.2 else acc) acc = acc := by
  induction ps generalizing acc with
  | nil => rfl
  | cons p ps ih =>
    rw [List.foldl_cons, if_neg (by simp [h p (List.mem_cons_self p ps)])]
    exact ih acc (fun q hq => h q (List.mem_cons_of_mem p hq))

/-- A successful rightmost-wins fold result is the accumulator or comes
from a matching pair of the list. -/
theorem foldl_fromPairs_spec (k : String) (ps : List (String × DownloadTask))
    (acc : Option DownloadTask) (t : DownloadTask)
    (h : ps.foldl (fun acc p => if p.1 == k then some p.2 else acc) acc = some t) :
    acc = some t ∨ ∃ p ∈ ps, p.1 = k ∧ p.2 = t := by
  induction ps generalizing acc with
  | nil => exact Or.inl h
  | cons p ps ih =>
    rw [List.foldl_cons] at h
    rcases ih _ h with h2 | ⟨q, hq, hqk, hqt⟩
    · by_cases hk : (p.1 == k) = true
      · rw [if_pos hk] at h2
        exact Or.inr ⟨p, List.mem_cons_self p ps, by simpa using hk, Option.some.inj h2⟩
      · rw [if_neg hk] at h2
        exact Or.inl h2
    · exact Or.inr ⟨q, List.mem_cons_of_mem p hq, hqk, hqt⟩

/-- With pairwise-distinct handles the rightmost-wins map lookup agrees
with the leftmost list search. -/
theorem fromPairsLookup_eq_find? (tasks : List DownloadTask) (k : String)
    (hnd : (tasks.map (fun t => t.gid)).Nodup) :
    fromPairsLookup (tasks.map (fun t => (t.gid, t))) k
      = tasks.find? (fun t => t.gid == k) := by
  induction tasks with
  | nil => rfl
  | cons t ts ih =>
    rw [List.map_cons] at hnd
    rcases List.nodup_cons.mp hnd with ⟨hnotin, hnd2⟩
    simp only [fromPairsLookup, List.map_cons, List.foldl_cons]
    by_cases hk : (t.gid == k) = true
    · rw [if_pos hk]
      have hconst : ∀ p ∈ ts.map (fun u => (u.gid, u)), (p.1 == k) = false := by
        intro p hp
        rcases List.mem_map.mp hp with ⟨u, hu, rfl⟩
        have hne : u.gid ≠ k := by
          intro he
          exact hnotin ((by simpa using hk : t.gid = k) ▸ he ▸ List.mem_map_of_mem _ hu)
        simpa using hne
      rw [foldl_fromPairs_const k (some t) _ hconst]
      simp [List.find?_cons, hk]
    · have hk2 : (t.gid == k) = false := by simpa using hk
      rw [if_neg hk]
      simp only [List.find?_cons, hk2]
      exact ih hnd2

/-- A successful map lookup returns a member of the incoming list whose
handle is the looked-up key. -/
theorem fromPairsLookup_mem (tasks : List DownloadTask) (k : String)
    (t : DownloadTask)
    (h : fromPairsLookup (tasks.map (fun u => (u.gid, u))) k = some t) :
    t ∈ tasks ∧ t.gid = k := by
  unfold fromPairsLookup at h
  rcases foldl_fromPairs_spec k (tasks.map (fun u => (u.gid, u))) none t h with
    h2 | ⟨p, hp, hpk, hpt⟩
  · exact Option.noConfusion h2
  · rcases List.mem_map.mp hp with ⟨u, hu, rfl⟩
    exact ⟨hpt ▸ hu, hpt ▸ hpk⟩

/-- C6: with pairwise-distinct incoming handles, the batch merge maps
each stored record to itself exactly when no incoming record shares
its handle or the incoming record is strictly older, and to the
incoming record otherwise; the store gains no records (length and the
auto-sync set are preserved), and — without any distinctness
assumption — a stored record is only ever replaced by an incoming
record with the same handle that is not older. -/
theorem batchUpdateDownloadTasks_merge_guard (tasks : List DownloadTask)
    (st : Store) (hnd : (tasks.map (fun t => t.gid)).Nodup) :
    (batchUpdateDownloadTasks tasks st).downloadTasks
      = st.downloadTasks.map (fun oldTask =>
          match tasks.find? (fun t => t.gid == oldTask.gid) with
          | none => oldTask
          | some newTask =>
            if newTask.updatedAt < oldTask.updatedAt then oldTask else newTask)
    ∧ (batchUpdateDownloadTasks tasks st).downloadTasks.length
        = st.downloadTasks.length
    ∧ (batchUpdateDownloadTasks tasks st).autoSyncTaskIds = st.autoSyncTaskIds
    ∧ ∀ (i : Nat) (oldTask newTask : DownloadTask),
        st.downloadTasks[i]? = some oldTask →
        (batchUpdateDownloadTasks tasks st).downloadTasks[i]? = some newTask →
        newTask = oldTask
          ∨ (newTask ∈ tasks ∧ newTask.gid = oldTask.gid
              ∧ oldTask.updatedAt ≤ newTask.updatedAt) := by
  refine ⟨?_, by simp [batchUpdateDownloadTasks], rfl, ?_⟩
  · unfold batchUpdateDownloadTasks
    dsimp only
    exact List.map_congr_left (fun x _ => by
      rw [fromPairsLookup_eq_find? tasks x.gid hnd])
  · intro i oldTask newTask hold hnew
    simp only [batchUpdateDownloadTasks, List.getElem?_map, hold,
      Option.map_some'] at hnew
    rcases hL : fromPairsLookup (tasks.map (fun t => (t.gid, t))) oldTask.gid with
      _ | u
    · rw [hL] at hnew
      dsimp only at hnew
      exact Or.inl (Option.some.inj hnew).symm
    · rw [hL] at hnew
      dsimp only at hnew
      by_cases hlt : u.updatedAt < oldTask.updatedAt
      · rw [if_pos hlt] at hnew
        exact Or.inl (Option.some.inj hnew).symm
      · rw [if_neg hlt] at hnew
        have hEq := Option.some.inj hnew
        rcases fromPairsLookup_mem tasks oldTask.gid u hL with ⟨hmem, hgid⟩
        exact Or.inr ⟨hEq ▸ hmem, hEq ▸ hgid, hEq ▸ Nat.le_of_not_lt hlt⟩

/-- Incoming record for the C6 witness: same handle, newer timestamp. -/
def taskC6 : DownloadTask := { taskG1 with updatedAt := 9, status := "complete" }

/-- C6 witness: the theorem applied at a one-record store and one newer
incoming record with a distinct handle list. -/
theorem batchUpdateDownloadTasks_merge_guard_witness :
    (batchUpdateDownloadTasks [taskC6] stOne).downloadTasks
      = stOne.downloadTasks.map (fun oldTask =>
          match [taskC6].find? (fun t => t.gid == oldTask.gid) with
          | none => oldTask
          | some newTask =>
            if newTask.updatedAt < oldTask.updatedAt then oldTask else newTask) :=
  (batchUpdateDownloadTasks_merge_guard [taskC6] stOne (by decide)).1

/-! ## C9 — redownload NotFound semantics and retry reset -/

/-- createDownloadTask either surfaces a daemon error or appends
exactly one freshly prepared record carrying the returned handle and
its reported initial status. -/
theorem createDownloadTask_cases (A : Aria2Env) (s : Settings) (rv : Resolver)
    (prepNow : Nat) (post : TwitterPost) (media : TwitterMedia) (st : Store) :
    (∃ e, createDownloadTask A s rv prepNow post media st
        = Except.error (Err.daemon e))
    ∨ ∃ g stat, A.tellStatus g = Except.ok stat
        ∧ createDownloadTask A s rv prepNow post media st
          = Except.ok { st with downloadTasks := st.downloadTasks ++
              [{ prepareDownloadTask s rv post media prepNow with
                  gid := g, status := stat.status }] } := by
  unfold createDownloadTask
  dsimp only
  cases hA : A.addUri (prepareDownloadTask s rv post media prepNow).downloadUrl
      (prepareDownloadTask s rv post media prepNow).dir
      (prepareDownloadTask s rv post media prepNow).fileName with
  | error e => exact Or.inl ⟨e, rfl⟩
  | ok g =>
    dsimp only
    cases hT : A.tellStatus g with
    | error e => exact Or.inl ⟨e, rfl⟩
    | ok stat => exact Or.inr ⟨g, stat, hT, rfl⟩

/-- Every error produced by the index-matched assignment step is the
runtime type error. -/
theorem assignGidsAndStatus_error_eq (m : String → Option AriaStat) :
    ∀ (ts : List DownloadTask) (gs : List String) (e : Err),
      assignGidsAndStatus m ts gs = Except.error e → e = Err.typeError
  | [], gs, e, h => by simp [assignGidsAndStatus] at h
  | t :: ts, [], e, h => by
    simp [assignGidsAndStatus] at h
    exact h.symm
  | t :: ts, g :: gs, e, h => by
    unfold assignGidsAndStatus at h
    cases hm : m g with
    | none =>
      rw [hm] at h
      dsimp only at h
      injection h with h2
      exact h2.symm
    | some a =>
      rw [hm] at h
      dsimp only at h
      cases hrec : assignGidsAndStatus m ts gs with
      | error e2 =>
        rw [hrec] at h
        dsimp only at h
        injection h with h2
        exact h2 ▸ assignGidsAndStatus_error_eq m ts gs e2 hrec
      | ok rest =>
        rw [hrec] at h
        dsimp only at h
        exact Except.noConfusion h

/-- batchCreateDownloadTask can fail with a daemon or type error but
never with the NotFound error. -/
theorem batchCreateDownloadTask_ne_notFound (A : Aria2Env) (s : Settings)
    (rv : Resolver) (prepNow : Nat)
    (paramsList : List (TwitterPost × TwitterMedia)) (st : Store) :
    batchCreateDownloadTask A s rv prepNow paramsList st
      ≠ Except.error Err.notFound := by
  intro hc
  unfold batchCreateDownloadTask at hc
  dsimp only at hc
  split at hc
  · exact Except.noConfusion hc
  · split at hc
    · simp at hc
    · split at hc
      · simp at hc
      · split at hc
        · rename_i e2 hAs
          simp only [Except.error.injEq] at hc
          exact Err.noConfusion
            ((assignGidsAndStatus_error_eq _ _ _ _ hAs).symm.trans hc)
        · exact Except.noConfusion hc

/-- C9: redownload fails with NotFound exactly when no stored record
carries the handle; on success the store holds, after the removal of
the old record, exactly one new record built from the same post and
media identity with the retry counter reset to the default 5; and the
batch variant fails with NotFound exactly when none of the requested
handles matches a stored record. -/
theorem redownloadTask_spec (A : Aria2Env) (s : Settings) (rv : Resolver)
    (prepNow : Nat) (gid : String) (gids : List String) (st : Store) :
    (redownloadTask A s rv prepNow gid st = Except.error Err.notFound
      ↔ st.downloadTasks.find? (fun t => t.gid == gid) = none)
    ∧ (∀ oldTask st2,
        st.downloadTasks.find? (fun t => t.gid == gid) = some oldTask →
        redownloadTask A s rv prepNow gid st = Except.ok st2 →
        ∃ newTask, st2.downloadTasks
            = (removeDownloadTask oldTask.gid st).downloadTasks ++ [newTask]
          ∧ newTask.ariaRetryCountRemains = 5
          ∧ newTask.post = oldTask.post ∧ newTask.media = oldTask.media)
    ∧ (batchRedownloadTask A s rv prepNow gids st = Except.error Err.notFound
      ↔ st.downloadTasks.filter (fun t => gids.contains t.gid) = []) := by
  refine ⟨?_, ?_, ?_⟩
  · unfold redownloadTask
    cases hf : st.downloadTasks.find? (fun t => t.gid == gid) with
    | none => simp
    | some oldTask =>
      dsimp only
      constructor
      · intro hc
        rcases createDownloadTask_cases A s rv prepNow oldTask.post oldTask.media
            (removeDownloadTask oldTask.gid st) with ⟨e, he⟩ | ⟨g, stat, _, he⟩
        · rw [he] at hc
          simp at hc
        · rw [he] at hc
          exact Except.noConfusion hc
      · intro hc
        exact Option.noConfusion hc
  · intro oldTask st2 hfind hok
    unfold redownloadTask at hok
    rw [hfind] at hok
    dsimp only at hok
    rcases createDownloadTask_cases A s rv prepNow oldTask.post oldTask.media
        (removeDownloadTask oldTask.gid st) with ⟨e, he⟩ | ⟨g, stat, _, he⟩
    · rw [he] at hok
      exact Except.noConfusion hok
    · rw [he] at hok
      have h2 := Except.ok.inj hok
      refine ⟨{ prepareDownloadTask s rv oldTask.post oldTask.media prepNow with
        gid := g, status := stat.status }, ?_, rfl, rfl, rfl⟩
      rw [← h2]
  · unfold batchRedownloadTask
    dsimp only
    by_cases h0 :
        ((st.downloadTasks.filter (fun t => gids.contains t.gid)).length == 0) = true
    · rw [if_pos h0]
      simp only [beq_iff_eq, List.length_eq_zero] at h0
      exact iff_of_true rfl h0
    · rw [if_neg h0]
      simp only [beq_iff_eq, List.length_eq_zero] at h0
      constructor
      · intro hc
        exact absurd hc (batchCreateDownloadTask_ne_notFound A s rv prepNow _ _)
      · intro hfe
        exact absurd hfe h0

/-- Record stored by the concrete redownload in the C9 witness: new
handle g2, fresh retry counter. -/
def taskC9new : DownloadTask :=
  { prepareDownloadTask settings0 rv0 postA mediaA 0 with
    gid := "g2", status := "active" }

/-- C9 witness: the theorem applied at the one-record store and the
healthy daemon stub: the recreated record has a fresh default retry
counter and the same source identity. -/
theorem redownloadTask_spec_witness :
    ∃ newTask,
      ({ downloadTasks := [taskC9new], autoSyncTaskIds := [] } : Store).downloadTasks
        = (removeDownloadTask taskG1.gid stOne).downloadTasks ++ [newTask]
      ∧ newTask.ariaRetryCountRemains = 5
      ∧ newTask.post = taskG1.post ∧ newTask.media = taskG1.media :=
  (redownloadTask_spec ariaOkEnv settings0 rv0 0 "g1" [] stOne).2.1 taskG1
    { downloadTasks := [taskC9new], autoSyncTaskIds := [] } rfl rfl

/-! ## C3 — which dropped media entries reach the skip counter -/

/-- Number of media entries of the given posts dropped by the
media-type filter stage. -/
def typeFilterDrops (mediaTypes : Option (List String))
    (posts : List TwitterPost) : Nat :=
  posts.foldl (fun acc post =>
    acc + ((post.medias.getD []).length
      - ((post.medias.getD []).filter (mediaPassesFilter mediaTypes)).length)) 0

/-- With the skip-existing option off, the media walk of one post never
counts a skip. -/
theorem collectMediaParams_no_skip (s : Settings) (rv : Resolver)
    (fsx : String → Bool) (prepNow : Nat) (post : TwitterPost)
    (hs : s.sameFileSkip = false) :
    ∀ ms : List TwitterMedia, (collectMediaParams s rv fsx prepNow post ms).1 = 0
  | [] => rfl
  | m :: ms => by
    have ih := collectMediaParams_no_skip s rv fsx prepNow post hs ms
    unfold collectMediaParams
    simp [hs, ih]

/-- With the skip-existing option off, the page walk never counts a
skip. -/
theorem collectPageParams_no_skip (s : Settings) (rv : Resolver)
    (fsx : String → Bool) (mediaTypes : Option (List String)) (prepNow : Nat)
    (hs : s.sameFileSkip = false) :
    ∀ posts : List TwitterPost,
      (collectPageParams s rv fsx mediaTypes prepNow posts).1 = 0
  | [] => rfl
  | post :: rest => by
    have ih := collectPageParams_no_skip s rv fsx mediaTypes prepNow hs rest
    unfold collectPageParams
    dsimp only
    rw [collectMediaParams_no_skip s rv fsx prepNow post hs _, ih]

/-- Sample media entry of a type outside the configured filter. -/
def mediaV : TwitterMedia := { id := "m2", mtype := "video" }

/-- Sample in-range post whose single media entry is a video. -/
def postV : TwitterPost := { id := "p2", createdAt := some 100, medias := some [mediaV] }

/-- Filter selecting only photo media, no date range, tweets source. -/
def filterC3 : DownloadFilter :=
  { mediaTypes := some ["photo"], dateRange := none, source := "tweets" }

/-- Creation task over the photo-only filter. -/
def ctC3 : CreationTask :=
  { id := "c1", userId := "u", filter := filterC3, status := "waiting",
    completeCount := 0, skipCount := 0 }

/-- Paginated-source stub serving one single-post page and then ending
the stream; no file ever exists on disk. -/
def twEnvC3 : TwitterEnv :=
  { getUserMedias := fun _ _ => Except.ok { twitterPosts := [], cursor := CursorV.null }
    getUserTweets := fun _ c =>
      if c == CursorV.undef then
        Except.ok { twitterPosts := [postV], cursor := CursorV.null }
      else Except.ok { twitterPosts := [], cursor := CursorV.null }
    fsExists := fun _ => false }

/-- C3 counterexample: a complete run over one page whose only post
survives the item filter while its single media entry is dropped by
the media-type stage ends with skip counter 0 — the type-stage drop
never increments the counter, contrary to the claim. -/
theorem runCreationTask_type_drop_uncounted_cex :
    runCreationTask ariaOkEnv twEnvC3 settings0 rv0 ctC3 1000 0 (fun _ => false) 5
        { downloadTasks := [], autoSyncTaskIds := [] }
      = some (Except.ok
          { completeCount := 0, skipCount := 0,
            store := { downloadTasks := [], autoSyncTaskIds := [] },
            published := [(0, 0)] })
    ∧ typeFilterDrops (some ["photo"]) ([postV].filter (postPassesFilter 0 1000)) = 1 :=
  ⟨rfl, rfl⟩

/-- C3 amended: per processed page, the skip counter grows by exactly
the whole media counts of the items dropped by the date-bound and
malformed-item filter plus the number of surviving entries skipped by
the same-file check; entries dropped by the media-type stage
contribute nothing (with the skip-existing option off, the second
summand is zero). -/
theorem processPage_skip_delta (A : Aria2Env) (s : Settings) (rv : Resolver)
    (fsx : String → Bool) (mediaTypes : Option (List String))
    (since untilT : Int) (prepNow : Nat) (posts : List TwitterPost)
    (rs : RunState) (out : RunState × Bool)
    (hout : processPage A s rv fsx mediaTypes since untilT prepNow posts rs
      = Except.ok out) :
    out.1.skipCount = rs.skipCount
      + (getMediaCounts posts
          - getMediaCounts (posts.filter (postPassesFilter since untilT)))
      + (collectPageParams s rv fsx mediaTypes prepNow
          (posts.filter (postPassesFilter since untilT))).1
    ∧ (s.sameFileSkip = false →
        (collectPageParams s rv fsx mediaTypes prepNow
          (posts.filter (postPassesFilter since untilT))).1 = 0) := by
  refine ⟨?_, fun hs => collectPageParams_no_skip s rv fsx mediaTypes prepNow hs _⟩
  unfold processPage at hout
  dsimp only at hout
  split at hout
  · rename_i hemp
    have hfe : posts.filter (postPassesFilter since untilT) = [] := by
      simpa using hemp
    have h2 := Except.ok.inj hout
    rw [← h2]
    dsimp only
    rw [hfe]
    simp [collectPageParams]
  · split at hout
    · have h2 := Except.ok.inj hout
      rw [← h2]
    · split at hout
      · exact Except.noConfusion hout
      · have h2 := Except.ok.inj hout
        rw [← h2]

/-- Run state before the C3 witness page. -/
def rsC3 : RunState :=
  { completeCount := 0, skipCount := 0,
    store := { downloadTasks := [], autoSyncTaskIds := [] }, published := [] }

/-- Run state and flag after the C3 witness page. -/
def outC3 : RunState × Bool :=
  ({ completeCount := 0, skipCount := 0,
     store := { downloadTasks := [], autoSyncTaskIds := [] },
     published := [(0, 0)] }, false)

/-- C3 witness: the amended theorem applied at the concrete page whose
only media entry is dropped by the type filter. -/
theorem processPage_skip_delta_witness :
    outC3.1.skipCount = rsC3.skipCount
      + (getMediaCounts [postV]
          - getMediaCounts ([postV].filter (postPassesFilter 0 1000)))
      + (collectPageParams settings0 rv0 (fun _ => false) (some ["photo"]) 0
          ([postV].filter (postPassesFilter 0 1000))).1 :=
  (processPage_skip_delta ariaOkEnv settings0 rv0 (fun _ => false) (some ["photo"])
    0 1000 0 [postV] rsC3 outC3 rfl).1

/-! ## C7 — scheduler mutual exclusion -/

/-- Inductive invariant of the scheduling system: task ids are pairwise
distinct and a task is active exactly when the in-flight runner is
running it. -/
def SchedInv (s : SchedState) : Prop :=
  (s.tasks.map (fun t => t.id)).Nodup
  ∧ ∀ t ∈ s.tasks, (t.status = "active" ↔ s.runner = some t.id)

/-- Every queue operation preserves the scheduling invariant. -/
theorem schedStep_inv {s s2 : SchedState} (h : SchedInv s) (hs : SchedStep s s2) :
    SchedInv s2 := by
  rcases h with ⟨hnd, hact⟩
  cases hs with
  | create t hw hfresh hrun =>
    constructor
    · rw [List.map_append]
      refine List.Nodup.append hnd (by simp) ?_
      intro a ha hb
      rcases List.mem_map.mp ha with ⟨u, hu, rfl⟩
      have hb2 : u.id = t.id := by simpa using hb
      exact hfresh u hu hb2
    · intro v hv
      rcases List.mem_append.mp hv with hv | hv
      · exact hact v hv
      · have hvt : v = t := by simpa using hv
        subst hvt
        constructor
        · intro ha
          rw [hw] at ha
          exact absurd ha (by decide)
        · intro hr
          exact absurd hr hrun
  | remove id =>
    constructor
    · exact List.Nodup.sublist ((List.filter_sublist s.tasks).map _) hnd
    · intro t ht
      exact hact t (List.mem_of_mem_filter ht)
  | pick t rest hrun htasks hnone =>
    have hnoact : ∀ u ∈ s.tasks, u.status ≠ "active" := by
      intro u hu
      have := List.find?_eq_none.mp hnone u hu
      simpa using this
    have hids : (s.tasks.map (fun u =>
        if u.id == t.id then { u with status := "active" } else u)).map
          (fun t => t.id) = s.tasks.map (fun t => t.id) := by
      rw [List.map_map]
      refine List.map_congr_left ?_
      intro u _
      by_cases h : u.id = t.id <;> simp [h]
    constructor
    · rw [hids]
      exact hnd
    · intro v hv
      rcases List.mem_map.mp hv with ⟨u, hu, rfl⟩
      by_cases hid : (u.id == t.id) = true
      · rw [if_pos hid]
        have huid : u.id = t.id := by simpa using hid
        constructor
        · intro _
          simp [huid]
        · intro _
          rfl
      · rw [if_neg hid]
        have hne : u.id ≠ t.id := by simpa using hid
        constructor
        · intro ha
          exact absurd ha (hnoact u hu)
        · intro hr
          exact absurd (Option.some.inj hr).symm hne
  | publish id cc sk hrun =>
    have hids : (s.tasks.map (fun u =>
        if u.id == id then
          { u with status := "active", completeCount := cc, skipCount := sk }
        else u)).map (fun t => t.id) = s.tasks.map (fun t => t.id) := by
      rw [List.map_map]
      refine List.map_congr_left ?_
      intro u _
      by_cases h : u.id = id <;> simp [h]
    constructor
    · rw [hids]
      exact hnd
    · intro v hv
      rcases List.mem_map.mp hv with ⟨u, hu, rfl⟩
      by_cases hid : (u.id == id) = true
      · rw [if_pos hid]
        have huid : u.id = id := by simpa using hid
        constructor
        · intro _
          rw [hrun, huid]
        · intro _
          rfl
      · rw [if_neg hid]
        exact hact u hu
  | finish id hrun =>
    constructor
    · exact List.Nodup.sublist ((List.filter_sublist s.tasks).map _) hnd
    · intro u hu
      have hu2 := List.mem_of_mem_filter hu
      have hne : u.id ≠ id := by
        have := List.of_mem_filter hu
        simpa using this
      constructor
      · intro ha
        have h2 := (hact u hu2).mp ha
        rw [hrun] at h2
        exact absurd (Option.some.inj h2).symm hne
      · intro hr
        exact Option.noConfusion hr

/-- Every reachable scheduling state satisfies the invariant. -/
theorem schedReachable_inv {s : SchedState} (h : SchedReachable s) : SchedInv s := by
  induction h with
  | init =>
    exact ⟨List.nodup_nil, by intro t ht; exact absurd ht (List.not_mem_nil t)⟩
  | step _ hs ih => exact schedStep_inv ih hs

/-- A list with pairwise-distinct ids holds at most one element of a
class whose members all share one id. -/
theorem length_filter_le_one (l : List CreationTask) (id : String)
    (hnd : (l.map (fun t => t.id)).Nodup)
    (hall : ∀ t ∈ l, (t.status == "active") = true → t.id = id) :
    (l.filter (fun t => t.status == "active")).length ≤ 1 := by
  induction l with
  | nil => simp
  | cons a l ih =>
    rw [List.map_cons] at hnd
    rcases List.nodup_cons.mp hnd with ⟨hnotin, hnd2⟩
    by_cases ha : (a.status == "active") = true
    · have hfl : l.filter (fun t => t.status == "active") = [] := by
        rw [List.filter_eq_nil_iff]
        intro b hb hpb
        have hbid := hall b (List.mem_cons_of_mem a hb) hpb
        have haid := hall a (List.mem_cons_self a l) ha
        apply hnotin
        rw [haid, ← hbid]
        exact List.mem_map_of_mem _ hb
      rw [@List.filter_cons_of_pos CreationTask (fun t => t.status == "active") a l ha, hfl]
      simp
    · rw [@List.filter_cons_of_neg CreationTask (fun t => t.status == "active") a l ha]
      exact ih hnd2 (fun t ht => hall t (List.mem_cons_of_mem a ht))

/-- C7: in every state reachable by any interleaving of creation,
scheduler picks, runner publishes and removals, at most one creation
task is active; the pick transition — the only one that activates a
task — fires only when the active-task search of the queue comes back
empty, exactly as the source checks before marking the head active. -/
theorem scheduler_mutual_exclusion (s : SchedState) (h : SchedReachable s) :
    countActive s.tasks ≤ 1 := by
  rcases schedReachable_inv h with ⟨hnd, hact⟩
  unfold countActive
  cases hr : s.runner with
  | none =>
    have hfl : s.tasks.filter (fun t => t.status == "active") = [] := by
      rw [List.filter_eq_nil_iff]
      intro t ht hpt
      have h2 := (hact t ht).mp (by simpa using hpt)
      rw [hr] at h2
      exact Option.noConfusion h2
    rw [hfl]
    simp
  | some id =>
    refine length_filter_le_one s.tasks id hnd ?_
    intro t ht hpt
    have h2 := (hact t ht).mp (by simpa using hpt)
    rw [hr] at h2
    exact (Option.some.inj h2).symm

/-- C7 witness: the theorem applied to the concrete state reached by
creating one task and letting the scheduler pick it. -/
theorem scheduler_mutual_exclusion_witness :
    SchedReachable { tasks := [{ ctC3 with status := "active" }], runner := some "c1" }
    ∧ countActive [{ ctC3 with status := "active" }] ≤ 1 := by
  have h1 : SchedReachable { tasks := [ctC3], runner := none } :=
    SchedReachable.step SchedReachable.init
      (SchedStep.create { tasks := [], runner := none } ctC3 rfl
        (by intro u hu; exact absurd hu (List.not_mem_nil u)) (by simp))
  have h2 : SchedReachable
      { tasks := [{ ctC3 with status := "active" }], runner := some "c1" } :=
    SchedReachable.step h1
      (SchedStep.pick { tasks := [ctC3], runner := none } ctC3 [] rfl rfl rfl)
  exact ⟨h2, scheduler_mutual_exclusion _ h2⟩

end XSpider
